import Mathlib

/-!
Verification of the llm-perf-platform task scheduler and execution lifecycle.

This file gives a shallow embedding, in Lean 4, of the parts of the
repository `llm-perf-platform` that the checked specification sentences
talk about:

* `llm_perf_platform/executor/command_executor.py`
  (`CommandExecutor.execute`, `CommandExecutor._run_command`,
  `CommandExecutor._parse_output`, `CommandExecutor.cancel`)
* `llm_perf_platform/tasks/scheduler.py`
  (`TaskScheduler._run_task`, `TaskScheduler.cancel_task`,
  `TaskScheduler._cleanup`)
* `llm_perf_platform/storage/results.py`
  (`ResultStorage.persist_result` naming, `ResultStorage.delete_file`)
* `llm_perf_platform/api/tests.py` (`delete_task` artifact removal)
* `llm_perf_platform/executor/base_executor.py`
  (`TaskType`, `ExecutionResult`, `to_dict`)
* `llm_perf_platform/services/venv_manager.py` (`get_repo_path`)

Text is modelled as `List Char`; the filesystem as the list of existing
paths; machine-level process state (PIDs, signals) is reduced to the
information the control flow actually consults (the recorded `_cancelled`
flag and the process exit code).  Python floats produced by `float(...)`
and by the JSON decoder are modelled as exact rationals; the claims under
check only depend on the decimal numeral, never on IEEE rounding.

The `TaskService` record store (`llm_perf_platform/services/task_service.py`)
is imported by the scheduler but its source file is not part of the
repository snapshot; its operations are modelled from the spec, see the
definitions marked "Modelled from the spec".
-/

/-! ## Basic text utilities -/

/-- Text is modelled character by character. -/
abbrev Str := List Char

/-- Opening curly brace character (used by the JSON line detector). -/
def lbrace : Char := Char.ofNat 123

/-- Closing curly brace character. -/
def rbrace : Char := Char.ofNat 125

/-- Whitespace test matching Python `str.strip` / `\s` for the characters
that can occur inside a single line (no newline handling needed since the
callers split on newlines first). -/
def pySpace (c : Char) : Bool :=
  c = ' ' || c = '\t' || c = '\x0d' || c = '\x0b' || c = '\x0c' || c = '\n'

/-- Substring test: Python `needle in hay`. -/
def containsSub (needle hay : Str) : Bool :=
  match hay with
  | [] => needle.isEmpty
  | _ :: t => needle.isPrefixOf hay || containsSub needle t

/-- Split a text on the newline character: Python `s.split("\n")`. -/
def splitLines (s : Str) : List Str :=
  match s with
  | [] => [[]]
  | c :: t =>
    let r := splitLines t
    if c = '\n' then [] :: r
    else match r with
      | [] => [[c]]
      | h :: t2 => (c :: h) :: t2

/-- Strip leading and trailing Python whitespace: `str.strip()`. -/
def stripStr (s : Str) : Str :=
  ((s.dropWhile pySpace).reverse.dropWhile pySpace).reverse

/-- Numeric value of a run of decimal digits. -/
def natOfDigits (s : Str) : Nat :=
  s.foldl (fun a c => a * 10 + (c.toNat - 48)) 0

/-- Decimal digit characters of a natural number (`str(n)` in Python). -/
def natStr (n : Nat) : Str := Nat.toDigits 10 n

/-- Decimal rendering of a Python integer (used for exit codes in
formatted error messages). -/
def intStr (i : Int) : Str :=
  if i < 0 then '-' :: natStr i.natAbs else natStr i.natAbs

/-! ## Output-pattern matching (`CommandExecutor._parse_output`)

The regular expressions of `_parse_output` are simple enough that their
`re.search` semantics (leftmost match) can be implemented directly by
scanning candidate start positions left to right. -/

/-- Character class `[0-9.]` of the score regex. -/
def digitDot (c : Char) : Bool := c.isDigit || c = '.'

/-- Character class `[a-f0-9\-]` of the generated-file regexes. -/
def hexDash (c : Char) : Bool :=
  c.isDigit || ('a' ≤ c && c ≤ 'f') || c = '-'

/-- Take exactly `k` characters satisfying `p`; return them and the rest. -/
def takeExact (p : Char → Bool) : Nat → Str → Option (Str × Str)
  | 0, rest => some ([], rest)
  | _ + 1, [] => none
  | k + 1, c :: t =>
    if p c then
      (takeExact p k t).map (fun pr => (c :: pr.1, pr.2))
    else none

/-- Match the capture group `[a-f0-9\-]+_\d{8}_\d{6}` followed by the
literal extension (".xlsx" or ".csv") at the head of `l`.  The `+` is
greedy in the source regex; since '_' is outside the class `[a-f0-9\-]`,
the greedy run admits no backtracking and the match is the maximal run. -/
def matchGenFileAt (ext : Str) (l : Str) : Option Str :=
  let run := l.takeWhile hexDash
  if run.isEmpty then none
  else
    match l.drop run.length with
    | '_' :: r1 =>
      match takeExact Char.isDigit 8 r1 with
      | some (d8, '_' :: r2) =>
        match takeExact Char.isDigit 6 r2 with
        | some (d6, r3) =>
          if ext.isPrefixOf r3 then
            some (run ++ '_' :: d8 ++ '_' :: d6 ++ ext)
          else none
        | none => none
      | _ => none
    | _ => none

/-- Leftmost position in `l` where `matchGenFileAt ext` succeeds. -/
def findGenFileFrom (ext : Str) (l : Str) : Option Str :=
  match l with
  | [] => none
  | _ :: t =>
    match matchGenFileAt ext l with
    | some cap => some cap
    | none => findGenFileFrom ext t

/-- Suffix of `l` that follows the first occurrence of `tok`. -/
def afterFirstToken (tok l : Str) : Option Str :=
  match l with
  | [] => if tok.isEmpty then some [] else none
  | _ :: t =>
    if tok.isPrefixOf l then some (l.drop tok.length)
    else afterFirstToken tok t

/-- Per-line match of `r'saved to:.*?([a-f0-9\-]+_\d{8}_\d{6}\.xlsx)'`
(respectively `.csv`).  A whole-pattern match exists iff the first
occurrence of "saved to:" is followed by a group match; the lazy gap
makes the earliest group occurrence after it the capture. -/
def genFileMatchLine (ext line : Str) : Option Str :=
  (afterFirstToken ("saved to:".toList) line).bind (findGenFileFrom ext)

/-- Try to match `score:` then `\s*` then a nonempty `[0-9.]+` run at the
head of `l`, returning the captured numeric token. -/
def matchScoreAt (l : Str) : Option Str :=
  if ("score:".toList).isPrefixOf l then
    let r := (l.drop 6).dropWhile pySpace
    let tok := r.takeWhile digitDot
    if tok.isEmpty then none else some tok
  else none

/-- Leftmost match of the score regex `r'score:\s*([0-9.]+)'` in a line
(`re.search` semantics: candidate start positions are scanned left to
right, and a position where the numeric group would be empty does not
match, so the scan continues). -/
def scoreTokenLine (l : Str) : Option Str :=
  match l with
  | [] => none
  | _ :: t =>
    match matchScoreAt l with
    | some tok => some tok
    | none => scoreTokenLine t

/-- Match `https?://[^\s]+` at the head of `l` (the capture group of the
allure-report regex). -/
def matchUrlAt (l : Str) : Option Str :=
  let hd :=
    if ("https://".toList).isPrefixOf l then some ("https://".toList)
    else if ("http://".toList).isPrefixOf l then some ("http://".toList)
    else none
  match hd with
  | none => none
  | some pre =>
    let rest := (l.drop pre.length).takeWhile (fun c => !pySpace c)
    some (pre ++ rest)

/-- Per-line match of `r'test_report:\s*(https?://[^\s]+)'`: scan start
positions left to right; at each, require the literal, optional spaces,
then a URL. -/
def allureMatchLine (l : Str) : Option Str :=
  match l with
  | [] => none
  | _ :: t =>
    if ("test_report:".toList).isPrefixOf l then
      match matchUrlAt ((l.drop 12).dropWhile pySpace) with
      | some url => some url
      | none => allureMatchLine t
    else allureMatchLine t

/-! ## Python `float` conversion of a `[0-9.]+` token

`float(tok)` succeeds exactly when the token holds at least one digit and
at most one dot; the value is the exact decimal (IEEE rounding is not
modelled, the claims only compare decimal numerals). -/

/-- Exact decimal value of the numeral with integer digits `ip` and
fractional digits `fp`. -/
def decimalVal (ip fp : Str) : Rat :=
  (natOfDigits ip : Rat) + (natOfDigits fp : Rat) / ((10 : Rat) ^ fp.length)

/-- Value of `float(tok)` for a token drawn from `[0-9.]+`, `none` when
Python would raise `ValueError`. -/
def floatOfToken (tok : Str) : Option Rat :=
  if tok.count '.' ≤ 1 && tok.any Char.isDigit then
    some (decimalVal (tok.takeWhile (· ≠ '.'))
      ((tok.dropWhile (· ≠ '.')).drop 1))
  else none

/-! ## Flat JSON object decoding (`json.loads` on single-line objects)

`_parse_output` feeds every stripped line that starts with "\x7b" and ends
with "\x7d" to `json.loads` and merges the resulting dict into the summary,
silently skipping lines that fail to decode.  The decoder is modelled for
flat objects with string keys and null / boolean / number / string values
(without exponent notation and with only the self-escaping string escapes);
lines outside this fragment are treated as failing to decode.  Nested
objects or arrays never feed the summary keys the platform consults, so
this restriction does not affect the checked claims. -/

/-- JSON scalar values as they land in the summary dict. -/
inductive JVal : Type
  | jnull : JVal
  | jbool : Bool → JVal
  | jnum : Rat → JVal
  | jstr : Str → JVal
deriving DecidableEq

/-- Python truthiness of a summary value (`if not value` tests). -/
def jvTruthy : JVal → Bool
  | .jnull => false
  | .jbool b => b
  | .jnum q => q ≠ 0
  | .jstr s => !s.isEmpty

/-- Parse a JSON string body after the opening quote, returning the
decoded text and the remainder after the closing quote. -/
def parseJStr : Nat → Str → Option (Str × Str)
  | 0, _ => none
  | _ + 1, [] => none
  | fuel + 1, c :: t =>
    if c = '"' then some ([], t)
    else if c = '\\' then
      match t with
      | '"' :: t2 => (parseJStr fuel t2).map (fun pr => ('"' :: pr.1, pr.2))
      | '\\' :: t2 => (parseJStr fuel t2).map (fun pr => ('\\' :: pr.1, pr.2))
      | '/' :: t2 => (parseJStr fuel t2).map (fun pr => ('/' :: pr.1, pr.2))
      | _ => none
    else (parseJStr fuel t).map (fun pr => (c :: pr.1, pr.2))

/-- Parse a JSON number (optional minus, digits, optional fraction). -/
def parseJNum (l : Str) : Option (Rat × Str) :=
  let (neg, l1) := match l with
    | '-' :: t => (true, t)
    | _ => (false, l)
  let intPart := l1.takeWhile Char.isDigit
  if intPart.isEmpty then none
  else
    let r1 := l1.drop intPart.length
    let (v, rest) :=
      match r1 with
      | '.' :: r2 =>
        let fracPart := r2.takeWhile Char.isDigit
        (decimalVal intPart fracPart, r2.drop fracPart.length)
      | _ => ((natOfDigits intPart : Rat), r1)
    match r1 with
    | '.' :: r2 => if (r2.takeWhile Char.isDigit).isEmpty then none
        else some (if neg then -v else v, rest)
    | _ => some (if neg then -v else v, rest)

/-- Parse one JSON scalar value. -/
def parseJVal (fuel : Nat) (l : Str) : Option (JVal × Str) :=
  match l with
  | '"' :: t => (parseJStr fuel t).map (fun pr => (JVal.jstr pr.1, pr.2))
  | 'n' :: 'u' :: 'l' :: 'l' :: t => some (JVal.jnull, t)
  | 't' :: 'r' :: 'u' :: 'e' :: t => some (JVal.jbool true, t)
  | 'f' :: 'a' :: 'l' :: 's' :: 'e' :: t => some (JVal.jbool false, t)
  | _ => (parseJNum l).map (fun pr => (JVal.jnum pr.1, pr.2))

/-- Parse the members of a flat JSON object after the opening brace,
in source order (duplicate keys are kept in order; applying them
sequentially reproduces the last-wins behaviour of `json.loads`). -/
def parseJMembers (fuel : Nat) (l : Str) : Option (List (Str × JVal)) :=
  match fuel with
  | 0 => none
  | fuel + 1 =>
    let l1 := l.dropWhile pySpace
    match l1 with
    | c :: t =>
      if c = rbrace then
        if (t.dropWhile pySpace).isEmpty then some [] else none
      else if c = '"' then
        match parseJStr fuel t with
        | none => none
        | some (key, r1) =>
          match (r1.dropWhile pySpace) with
          | ':' :: r2 =>
            match parseJVal fuel (r2.dropWhile pySpace) with
            | none => none
            | some (v, r3) =>
              let r4 := r3.dropWhile pySpace
              match r4 with
              | ',' :: r5 =>
                (parseJMembers fuel r5).map (fun ms => (key, v) :: ms)
              | c2 :: r5 =>
                if c2 = rbrace && (r5.dropWhile pySpace).isEmpty then
                  some [(key, v)]
                else none
              | [] => none
          | _ => none
      else none
    | [] => none

/-- Decode a stripped line as a flat JSON object (the line is known to
start with an opening brace when this is called). -/
def decodeJsonLine (l : Str) : Option (List (Str × JVal)) :=
  match l with
  | c :: t => if c = lbrace then parseJMembers (l.length + 1) t else none
  | [] => none

/-! ## Summary dictionary and `_parse_output` -/

/-- Summary dictionary built by `_parse_output` and later extended by
`_run_command`.  The named fields are the keys the platform consults
(`output_xlsx`, `output_csv`, `score`, `allure_report`, `raw_output`,
`exit_code`, `error`); any other key merged from a JSON line is kept in
`others` so that the emptiness test `if not summary` is exact.  A field
holding `some .jnull` models a key present with value `None`, which is
distinct from an absent key for the `"score" not in summary` guards. -/
structure Summary : Type where
  score : Option JVal := none
  outputXlsx : Option JVal := none
  outputCsv : Option JVal := none
  allureReport : Option JVal := none
  rawOutput : Option Str := none
  exitCode : Option Int := none
  errText : Option Str := none
  others : List (Str × JVal) := []
deriving DecidableEq

/-- Emptiness of the summary dict (`if not summary`). -/
def Summary.isEmptyDict (s : Summary) : Bool :=
  s.score.isNone && s.outputXlsx.isNone && s.outputCsv.isNone &&
  s.allureReport.isNone && s.rawOutput.isNone && s.exitCode.isNone &&
  s.errText.isNone && s.others.isEmpty

/-- Merge one decoded JSON member into the summary (`summary.update`). -/
def Summary.setKey (s : Summary) (key : Str) (v : JVal) : Summary :=
  if key = "score".toList then { s with score := some v }
  else if key = "output_xlsx".toList then { s with outputXlsx := some v }
  else if key = "output_csv".toList then { s with outputCsv := some v }
  else if key = "allure_report".toList then { s with allureReport := some v }
  else { s with others := s.others ++ [(key, v)] }

/-- First pass of `_parse_output`: every line whose stripped form starts
with an opening brace and ends with a closing brace is decoded as JSON and
merged into the summary; lines that fail to decode are skipped. -/
def jsonPass (lines : List Str) (s : Summary) : Summary :=
  lines.foldl
    (fun acc line =>
      let l := stripStr line
      match l with
      | c :: _ =>
        if c = lbrace && l.getLast? = some rbrace then
          match decodeJsonLine l with
          | some ms => ms.foldl (fun a m => a.setKey m.1 m.2) acc
          | none => acc
        else acc
      | [] => acc)
    s

/-- Second pass of `_parse_output` applied to one line: the xlsx and csv
captures overwrite unconditionally, the score and allure captures are
stored only when their key is absent, and a score capture that `float`
cannot convert raises `ValueError` (modelled as `Except.error`). -/
def regexLinePass (s : Summary) (line : Str) : Except Str Summary :=
  let s1 := match genFileMatchLine (".xlsx".toList) line with
    | some cap => { s with outputXlsx := some (JVal.jstr cap) }
    | none => s
  let s2 := match genFileMatchLine (".csv".toList) line with
    | some cap => { s1 with outputCsv := some (JVal.jstr cap) }
    | none => s1
  match scoreTokenLine line, s2.score with
  | some tok, none =>
    match floatOfToken tok with
    | some q =>
      let s3 := { s2 with score := some (JVal.jnum q) }
      match allureMatchLine line, s3.allureReport with
      | some url, none => Except.ok { s3 with allureReport := some (JVal.jstr url) }
      | _, _ => Except.ok s3
    | none => Except.error ("could not convert string to float: ".toList ++ tok)
  | _, _ =>
    match allureMatchLine line, s2.allureReport with
    | some url, none => Except.ok { s2 with allureReport := some (JVal.jstr url) }
    | _, _ => Except.ok s2

/-- Second pass of `_parse_output` over all lines. -/
def regexPass (lines : List Str) (s : Summary) : Except Str Summary :=
  match lines with
  | [] => Except.ok s
  | l :: t =>
    match regexLinePass s l with
    | Except.ok s1 => regexPass t s1
    | Except.error e => Except.error e

/-- Model of `CommandExecutor._parse_output`: JSON pass, then regex pass,
then the raw-output fallback when the summary is still empty.  Returns
`Except.error` when the score conversion raises (the caller catches it). -/
def parseOutput (stdoutS : Str) : Except Str Summary :=
  let lines := splitLines stdoutS
  match regexPass lines (jsonPass lines {}) with
  | Except.error e => Except.error e
  | Except.ok s =>
    Except.ok (if s.isEmptyDict
      then { s with rawOutput := some (stdoutS.take 1000) }
      else s)

/-! ## Task types and execution results (`base_executor.py`) -/

/-- Enumeration `TaskType` of `base_executor.py`. -/
inductive TaskType : Type
  | perf_test_api
  | perf_test_cmd
  | eval_test
  | pytest
  | env_deploy
  | hardware_info
  | system_maintenance
  | generic_command
deriving DecidableEq

/-- String value of each enum member. -/
def TaskType.str : TaskType → Str
  | .perf_test_api => "perf_test_api".toList
  | .perf_test_cmd => "perf_test_cmd".toList
  | .eval_test => "eval_test".toList
  | .pytest => "pytest".toList
  | .env_deploy => "env_deploy".toList
  | .hardware_info => "hardware_info".toList
  | .system_maintenance => "system_maintenance".toList
  | .generic_command => "generic_command".toList

/-- All members of the enumeration. -/
def TaskType.all : List TaskType :=
  [.perf_test_api, .perf_test_cmd, .eval_test, .pytest, .env_deploy,
   .hardware_info, .system_maintenance, .generic_command]

/-- Python `TaskType(s)` lookup: the member whose value equals `s`, or
`none` where Python raises `ValueError`. -/
def TaskType.ofStr (s : Str) : Option TaskType :=
  TaskType.all.find? (fun t => t.str = s)

/-- Model of `ExecutionResult` from `base_executor.py`.  The `outputFile`
field keeps the raw Python value (a string in normal runs, but any JSON
value can flow in through `summary["output_xlsx"]`). -/
structure ExecResult : Type where
  success : Bool
  summary : Summary
  error : Option Str := none
  requests : List Unit := []
  outputFile : Option JVal := none
  stdout : Option Str := none
  stderr : Option Str := none
  exitCode : Option Int := none
deriving DecidableEq

/-- Truthiness of an optional summary value. -/
def truthyOpt : Option JVal → Bool
  | none => false
  | some v => jvTruthy v

/-- Value of `result.to_dict().get("error", "unknown-error")` as read by
the scheduler: `to_dict` includes the error only when it is truthy. -/
def ExecResult.dictError (r : ExecResult) : Str :=
  match r.error with
  | some e => if e.isEmpty then "unknown-error".toList else e
  | none => "unknown-error".toList

/-- Value of `result.to_dict().get("output_file")` as read by the
scheduler: `to_dict` includes the field only when it is truthy. -/
def ExecResult.dictOutputFile (r : ExecResult) : Option JVal :=
  if truthyOpt r.outputFile then r.outputFile else none

/-! ## Command classification (`CommandExecutor._run_command`)

The model starts where the spawned process has exited: inputs are the
recorded `_cancelled` flag, the exit code, the captured stdout/stderr
texts, the executor's `command_type`, and the optional `output_file`
argument (`None` at every call site in the source). -/

/-- Special error marker returned when a recorded cancellation killed the
process. -/
def cancelMarker : Str := "task_cancelled".toList

/-- Error-pattern table of `_run_command` (pattern, description), in
source order. -/
def errorPatterns : List (Str × Str) :=
  [("Connection refused".toList, "Connection to model server refused".toList),
   ("Connection error".toList, "Connection to model server failed".toList),
   ("ConnectError".toList, "Network connection error".toList),
   ("TimeoutError".toList, "Request timeout".toList),
   ("eval finished. score:\n".toList,
      "Evaluation completed but no score obtained".toList),
   ("eval finished. score: \n".toList,
      "Evaluation completed but no score obtained".toList)]

/-- Error message attached to a detected pattern. -/
def patternMsg (pr : Str × Str) : Str :=
  pr.2 ++ " (detected pattern: ".toList ++ pr.1 ++ ")".toList

/-- Output-file detection step: `if not output_file and "output_xlsx" in
summary: output_file = summary["output_xlsx"]`. -/
def detectOutputFile (param : Option Str) (s : Summary) : Option JVal :=
  let p : Option JVal := param.map JVal.jstr
  if !truthyOpt p then
    match s.outputXlsx with
    | some v => some v
    | none => p
  else p

/-- Validity test of the extracted evaluation score: fails when the key
is absent or its value is `None`. -/
def scoreValid (s : Summary) : Bool :=
  match s.score with
  | none => false
  | some JVal.jnull => false
  | some _ => true

/-- Message when an evaluation run produced no usable score. -/
def noScoreMsg : Str :=
  "Evaluation task completed but no valid score was obtained".toList

/-- Message when a command failed without captured stderr. -/
def defaultFailMsg (exitCode : Int) : Str :=
  "Command failed with exit code ".toList ++ intStr exitCode

/-- Tail of `_run_command` after the pattern check: the evaluation-score
gate, then the generic failure return, then the success return. -/
def evalGate (summ : Summary) (outf : Option JVal) (succ : Bool)
    (selfType : TaskType) (stdoutS stderrS : Str) (exitCode : Int) :
    ExecResult :=
  if succ && selfType = TaskType.eval_test && !scoreValid summ then
    { success := false, summary := summ, error := some noScoreMsg,
      stdout := some stdoutS, stderr := some stderrS,
      exitCode := some exitCode }
  else if !succ then
    { success := false, summary := summ,
      error := some (if stderrS.isEmpty then defaultFailMsg exitCode
        else stderrS),
      stdout := some stdoutS, stderr := some stderrS,
      exitCode := some exitCode }
  else
    { success := true, summary := summ, outputFile := outf,
      stdout := some stdoutS, stderr := some stderrS,
      exitCode := some exitCode }

/-- Classification performed by `_run_command` once the process has
exited: the cancellation marker check, output parsing (whose score
conversion may raise, caught by the outer handler), output-file
detection, the error-pattern scan (skipped when an output file was
detected, which instead promotes a non-zero exit to success), the
evaluation-score gate, and the final success/failure returns. -/
def runCommand (cancelled : Bool) (exitCode : Int)
    (stdoutS stderrS : Str) (selfType : TaskType) (param : Option Str) :
    ExecResult :=
  if cancelled && exitCode = -9 then
    { success := false, summary := { exitCode := some exitCode },
      error := some cancelMarker, stdout := some stdoutS,
      stderr := some stderrS, exitCode := some exitCode }
  else
    match parseOutput stdoutS with
    | Except.error e =>
      { success := false, summary := { errText := some e }, error := some e }
    | Except.ok s0 =>
      let summ := { s0 with exitCode := some exitCode }
      let outf := detectOutputFile param s0
      let combined := stdoutS ++ '\n' :: stderrS
      if !truthyOpt outf then
        match errorPatterns.find? (fun pr => containsSub pr.1 combined) with
        | some pr =>
          { success := false, summary := summ, error := some (patternMsg pr),
            stdout := some stdoutS, stderr := some stderrS,
            exitCode := some exitCode }
        | none =>
          evalGate summ outf (exitCode = 0) selfType stdoutS stderrS exitCode
      else
        evalGate summ outf true selfType stdoutS stderrS exitCode

/-! ## Command-type dispatch (`CommandExecutor.execute`) -/

/-- Command kinds handled by `CommandExecutor.execute`. -/
def commandKinds : List TaskType :=
  [.perf_test_cmd, .eval_test, .pytest, .env_deploy, .generic_command]

/-- Resolution of the effective command type at the top of `execute`:
`TaskType(payload.get("command_type", self.command_type))` at
command_executor.py line 112.  This call sits BEFORE the `try:` block
that starts at line 116, so the `ValueError` it raises for an unknown
string is not caught by `execute`: it escapes `execute` and reaches the
scheduler's worker-boundary exception handler.  The error text models
Python's enum message (quotes around the value omitted). -/
def resolveCommandType (payloadCommandType : Option Str)
    (selfType : TaskType) : Except Str TaskType :=
  match payloadCommandType with
  | none => Except.ok selfType
  | some s =>
    match TaskType.ofStr s with
    | some t => Except.ok t
    | none => Except.error (s ++ " is not a valid TaskType".toList)

/-- Failure result built by the `except` clause of `execute` for an
exception raised inside its `try` block. -/
def executeErrorResult (e : Str) : ExecResult :=
  { success := false, summary := { errText := some e }, error := some e }

/-- Outcomes of the dispatch part of `execute`, distinguishing the two
error paths the source takes. -/
inductive ExecuteDispatchOutcome : Type
  | raised (exc : Str)
  | caughtError (res : ExecResult)
  | branch (t : TaskType)
deriving DecidableEq

/-- Dispatch performed by `execute`: an unknown `command_type` string
raises before the `try` and escapes `execute` unhandled (`raised`); a
valid member that no branch handles raises the explicit unsupported-type
`ValueError` inside the `try`, which `execute`'s own `except` clause
turns into an unsuccessful `ExecutionResult` (`caughtError`); otherwise
the matching command branch runs.  The unsupported-type text models
Python's rendering of the enum member. -/
def executeDispatch (payloadCommandType : Option Str)
    (selfType : TaskType) : ExecuteDispatchOutcome :=
  match resolveCommandType payloadCommandType selfType with
  | Except.error e => ExecuteDispatchOutcome.raised e
  | Except.ok t =>
    if commandKinds.contains t then ExecuteDispatchOutcome.branch t
    else ExecuteDispatchOutcome.caughtError
      (executeErrorResult ("Unsupported command type: TaskType.".toList ++
        t.str))

/-! ## Paths, directories and artifact naming -/

/-- Membership of a path in the modelled filesystem. -/
def fsMem (p : Str) (fs : List Str) : Bool :=
  fs.any (fun q => q = p)

/-- Path join, `pathlib` semantics: an absolute right operand replaces
the left one. -/
def pathJoin (a b : Str) : Str :=
  match b with
  | '/' :: _ => b
  | _ => a ++ '/' :: b

/-- Absolute-path test (`Path.is_absolute` on POSIX). -/
def isAbsPath (p : Str) : Bool :=
  match p with
  | '/' :: _ => true
  | _ => false

/-- Final path component (`Path.name`). -/
def baseName (p : Str) : Str :=
  (p.reverse.takeWhile (· ≠ '/')).reverse

/-- Results directory `RESULTS_DIR` of `storage/results.py`; the concrete
root abstracts the environment-configured location. -/
def RESULTS_DIR : Str := "/srv/llm-perf/results".toList

/-- Task-log directory `LOG_DIR` of `executor/logger.py`; the concrete
root abstracts the environment-configured location. -/
def LOG_DIR : Str := "/srv/llm-perf/logs/tasks".toList

/-- Base directory `REPO_BASE_DIR` of `services/venv_manager.py`; the
concrete root abstracts the environment-configured location. -/
def REPO_BASE_DIR : Str := "/srv/llm-perf/appauto-repos".toList

/-- Branch-name sanitisation of `VenvManager.get_repo_path`. -/
def sanitizeBranch (branch : Str) : Str :=
  branch.map (fun c => if c = '/' || c = '\\' then '_' else c)

/-- Repository directory of a branch (`VenvManager.get_repo_path`). -/
def repoPath (branch : Str) : Str :=
  pathJoin REPO_BASE_DIR (sanitizeBranch branch)

/-- Path produced by `ResultStorage.persist_result` for a display id:
`RESULTS_DIR / f"task_{task_id}.xlsx"` (the synthesized-artifact
fallback). -/
def persistPath (displayId : Nat) : Str :=
  pathJoin RESULTS_DIR ("task_".toList ++ natStr displayId ++ ".xlsx".toList)

/-- Target of the move performed by the scheduler for an existing
generated artifact: `RESULTS_DIR / f"{display_id}_{original.name}"`. -/
def movedTarget (displayId : Nat) (original : Str) : Str :=
  pathJoin RESULTS_DIR (natStr displayId ++ '_' :: baseName original)

/-! ## Task Record Store

The scheduler imports `TaskService` from
`llm_perf_platform/services/task_service.py`, a module whose source is not
part of the repository snapshot; the store is therefore modelled from the
spec (section 4.4): one durable record per task id, each call atomic. -/

/-- Task lifecycle states. -/
inductive Status : Type
  | queued
  | running
  | completed
  | failed
  | cancelled
deriving DecidableEq

/-- Modelled from the spec: the durable task record held by the Task
Record Store (status, result locations, summary, error text, display id
and unique token; timestamps are not consulted by any checked claim). -/
structure TaskRecord : Type where
  status : Status
  displayId : Option Nat := none
  uuid : Str := []
  resultPath : Option JVal := none
  archivedPath : Option JVal := none
  taskSummary : Option Summary := none
  errText : Option Str := none
deriving DecidableEq

/-- Modelled from the spec: the store maps task ids to records. -/
def Store : Type := List (Nat × TaskRecord)

instance : DecidableEq Store := inferInstanceAs (DecidableEq (List (Nat × TaskRecord)))

/-- Association-list lookup by task id. -/
def assocFind {β : Type} (k : Nat) : List (Nat × β) → Option β
  | [] => none
  | p :: t => if p.1 = k then some p.2 else assocFind k t

/-- Association-list update of an existing key. -/
def assocSet {β : Type} (k : Nat) (v : β) (l : List (Nat × β)) :
    List (Nat × β) :=
  l.map (fun p => if p.1 = k then (k, v) else p)

/-- Association-list removal (`dict.pop(key, None)`). -/
def assocRemove {β : Type} (k : Nat) (l : List (Nat × β)) :
    List (Nat × β) :=
  l.filter (fun p => p.1 ≠ k)

/-- Modelled from the spec: `get(id) -> record|None`. -/
def getTask (st : Store) (id : Nat) : Option TaskRecord :=
  assocFind id st

/-- Record update helper: rewrite the record at `id` when present. -/
def updateRecord (st : Store) (id : Nat) (f : TaskRecord → TaskRecord) :
    Store :=
  st.map (fun p => if p.1 = id then (p.1, f p.2) else p)

/-- Modelled from the spec: `markRunning(id)`. -/
def markRunning (st : Store) (id : Nat) : Store :=
  updateRecord st id (fun r => { r with status := Status.running })

/-- Modelled from the spec: `markCompleted(id, resultPath, summary)`. -/
def markCompleted (st : Store) (id : Nat) (resultPath : JVal)
    (summ : Summary) : Store :=
  updateRecord st id (fun r =>
    { r with
        status := Status.completed
        resultPath := some resultPath
        taskSummary := some summ })

/-- Modelled from the spec: `markFailed(id, error)`. -/
def markFailed (st : Store) (id : Nat) (err : Str) : Store :=
  updateRecord st id (fun r =>
    { r with status := Status.failed, errText := some err })

/-- Modelled from the spec: `markCancelled(id)`. -/
def markCancelled (st : Store) (id : Nat) : Store :=
  updateRecord st id (fun r => { r with status := Status.cancelled })

/-- Store mutation chosen by the worker body for one completed execution. -/
inductive StoreAction : Type
  | keep
  | doCancel
  | doFail (err : Str)
  | doComplete (resultPath : JVal) (summ : Summary)
deriving DecidableEq

/-- Apply a store action at a task id. -/
def applyStoreAction (st : Store) (id : Nat) : StoreAction → Store
  | .keep => st
  | .doCancel => markCancelled st id
  | .doFail e => markFailed st id e
  | .doComplete p summ => markCompleted st id p summ

/-! ## Scheduler dispatch and result routing (`TaskScheduler._run_task`) -/

/-- Execution backends selected by the worker body. -/
inductive Backend : Type
  | apiB
  | hardwareB
  | maintenanceB
  | commandB
deriving DecidableEq

/-- Task-type resolution of `_run_task`: the payload value defaults to
"perf_test_api" when absent, and an unknown string falls back to
`TaskType.PERF_TEST_API` through the `except ValueError` clause. -/
def dispatchTaskType (payloadTaskType : Option Str) : TaskType :=
  match payloadTaskType with
  | none => TaskType.perf_test_api
  | some s => (TaskType.ofStr s).getD TaskType.perf_test_api

/-- Backend selection of `_run_task` by resolved task type. -/
def selectBackend : TaskType → Backend
  | TaskType.perf_test_api => Backend.apiB
  | TaskType.hardware_info => Backend.hardwareB
  | TaskType.system_maintenance => Backend.maintenanceB
  | _ => Backend.commandB

/-- Executor registration discipline: `_run_command_task` stores the
`CommandExecutor` in the scheduler's executor table, and it is the only
worker path that does so. -/
def registersExecutor (t : TaskType) : Bool :=
  selectBackend t = Backend.commandB

/-- Success-branch routing of `_run_task` (lines 100-225): decide the
final result path, or raise `TypeError` when a non-string artifact value
reaches a `Path` join.  `fs` is the set of existing files; `payloadBranch`
is `payload.get("appauto_branch")`. -/
def routeSuccess (t : TaskType) (displayId : Nat)
    (payloadBranch : Option Str) (res : ExecResult) (fs : List Str) :
    Except Str StoreAction :=
  let summ := res.summary
  let appautoXlsx := summ.outputXlsx
  let outputFile := res.dictOutputFile
  let branch := payloadBranch.getD ("main".toList)
  if t = TaskType.hardware_info && truthyOpt outputFile then
    Except.ok (StoreAction.doComplete (outputFile.getD JVal.jnull) summ)
  else if t = TaskType.system_maintenance then
    Except.ok (StoreAction.doComplete (JVal.jstr []) summ)
  else if !(t = TaskType.perf_test_api) && truthyOpt appautoXlsx then
    match appautoXlsx with
    | some (JVal.jstr name) =>
      let original := pathJoin (repoPath branch) name
      if fsMem original fs then
        Except.ok (StoreAction.doComplete
          (JVal.jstr (movedTarget displayId original)) summ)
      else
        Except.ok (StoreAction.doComplete
          (JVal.jstr (persistPath displayId)) summ)
    | _ => Except.error ("TypeError: unsupported operand type for /".toList)
  else
    match outputFile with
    | some v =>
      if jvTruthy v then
        match v with
        | JVal.jstr ofp =>
          let original :=
            if isAbsPath ofp then ofp else pathJoin (repoPath branch) ofp
          if fsMem original fs then
            Except.ok (StoreAction.doComplete
              (JVal.jstr (movedTarget displayId original)) summ)
          else
            Except.ok (StoreAction.doComplete
              (JVal.jstr (persistPath displayId)) summ)
        | _ => Except.error ("TypeError: argument should be a str".toList)
      else Except.ok (StoreAction.doComplete
        (JVal.jstr (persistPath displayId)) summ)
    | none => Except.ok (StoreAction.doComplete
      (JVal.jstr (persistPath displayId)) summ)

/-- Failure-branch handling of `_run_task` (lines 226-232): the special
`task_cancelled` marker maps to `mark_cancelled`, everything else to
`mark_failed`. -/
def failureAction (res : ExecResult) : StoreAction :=
  if res.dictError = cancelMarker then StoreAction.doCancel
  else StoreAction.doFail res.dictError

/-- Store action chosen by `_run_task` for a backend result. -/
def resultAction (t : TaskType) (displayId : Nat)
    (payloadBranch : Option Str) (res : ExecResult) (fs : List Str) :
    Except Str StoreAction :=
  if res.success then routeSuccess t displayId payloadBranch res fs
  else Except.ok (failureAction res)

/-- Worker-boundary exception handler of `_run_task` (lines 233-239): on
an unexpected exception the record's current status is re-read; a record
already `cancelled` is left untouched, anything else is marked failed
with the exception text. -/
def workerExceptionHandler (st : Store) (id : Nat) (excText : Str) :
    Store :=
  match getTask st id with
  | some r =>
    if r.status = Status.cancelled then st else markFailed st id excText
  | none => markFailed st id excText

/-! ## In-flight handles and cancellation (`TaskScheduler.cancel_task`) -/

/-- States of a `concurrent.futures.Future`. -/
inductive FutureState : Type
  | pendingF
  | runningF
  | finishedF
  | cancelledF
deriving DecidableEq

/-- Python `future.done()`. -/
def FutureState.doneF : FutureState → Bool
  | .finishedF => true
  | .cancelledF => true
  | _ => false

/-- Python `future.cancel()`: succeeds only on a future that has not
started (or was already cancelled); a running or finished future reports
failure and keeps its state. -/
def futureCancel : FutureState → Bool × FutureState
  | .pendingF => (true, .cancelledF)
  | .runningF => (false, .runningF)
  | .finishedF => (false, .finishedF)
  | .cancelledF => (true, .cancelledF)

/-- In-flight executor handle as consulted by cancellation: the
`CommandExecutor` with its recorded `_cancelled` flag (`cancel()` sets
the flag and kills the recorded process group). -/
structure ExecHandle : Type where
  cancelledFlag : Bool
deriving DecidableEq

/-- Scheduler state: the two in-flight tables guarded by the lock, plus
the record store. -/
structure SchedState : Type where
  futures : List (Nat × FutureState)
  executors : List (Nat × ExecHandle)
  store : Store
deriving DecidableEq

/-- Model of `TaskScheduler.cancel_task` (scheduler.py lines 362-399):
under the lock, look up the future and executor for the id; call
`executor.cancel()` when an executor is registered; attempt
`future.cancel()` when the future exists and is not done; report success
and mark the record cancelled exactly when an executor was registered or
the future cancellation succeeded. -/
def cancelTask (s : SchedState) (id : Nat) : Bool × SchedState :=
  let fut := assocFind id s.futures
  let ex := assocFind id s.executors
  let executors1 :=
    match ex with
    | some _ => assocSet id { cancelledFlag := true } s.executors
    | none => s.executors
  let futCancelled :=
    match fut with
    | some f => if !f.doneF then (futureCancel f).1 else false
    | none => false
  let futures1 :=
    match fut with
    | some f => if !f.doneF then assocSet id (futureCancel f).2 s.futures
      else s.futures
    | none => s.futures
  if ex.isSome || futCancelled then
    (true, { futures := futures1, executors := executors1,
             store := markCancelled s.store id })
  else
    (false, { futures := futures1, executors := executors1,
              store := s.store })

/-- Model of `TaskScheduler._cleanup`, the future's completion callback:
under the lock, remove the id from both in-flight tables. -/
def cleanupTask (s : SchedState) (id : Nat) : SchedState :=
  { s with
      futures := assocRemove id s.futures
      executors := assocRemove id s.executors }

/-! ## Artifact deletion (`delete_task` and `ResultStorage.delete_file`) -/

/-- Remove a path from the filesystem (`Path.unlink` on an existing
file). -/
def unlinkFs (fs : List Str) (p : Str) : List Str :=
  fs.filter (fun q => q ≠ p)

/-- Model of `ResultStorage.delete_file`: a falsy path (absent or empty)
returns immediately; an existing path is unlinked; a missing path is left
alone; a non-string path makes the `Path` constructor raise `TypeError`. -/
def deleteFile (fs : List Str) (path : Option JVal) :
    Except Str (List Str) :=
  match path with
  | none => Except.ok fs
  | some v =>
    if !jvTruthy v then Except.ok fs
    else
      match v with
      | JVal.jstr s =>
        Except.ok (if fsMem s fs then unlinkFs fs s else fs)
      | _ => Except.error ("TypeError: argument should be a str".toList)

/-- Log-file path deleted by `delete_task`:
`LOG_DIR / f"{display_id}_{uuid}.log"` with
`display_id = record.display_id or task_id`. -/
def taskLogPath (taskId : Nat) (rec : TaskRecord) : Str :=
  let did := match rec.displayId with
    | some d => if d ≠ 0 then d else taskId
    | none => taskId
  pathJoin LOG_DIR (natStr did ++ '_' :: rec.uuid ++ ".log".toList)

/-- File-removal part of `delete_task` (api/tests.py lines 248-270):
delete the primary result, the archived result, and the log file; the log
file is unlinked only when it exists. -/
def deleteTaskArtifacts (taskId : Nat) (rec : TaskRecord)
    (fs : List Str) : Except Str (List Str) := do
  let fs1 ← deleteFile fs rec.resultPath
  let fs2 ← deleteFile fs1 rec.archivedPath
  let lp := taskLogPath taskId rec
  if fsMem lp fs2 then pure (unlinkFs fs2 lp) else pure fs2

/-! ## Helper lemmas -/

/-- Looking a key up after updating a record at that key applies the
update to the found record. -/
theorem getTask_updateRecord (st : Store) (id : Nat)
    (f : TaskRecord → TaskRecord) :
    getTask (updateRecord st id f) id = (getTask st id).map f := by
  induction st with
  | nil => rfl
  | cons p t ih =>
    by_cases h : p.1 = id
    · simp [getTask, updateRecord, assocFind, h]
    · simpa [getTask, updateRecord, assocFind, h] using ih

/-- Removing a key makes its lookup fail. -/
theorem assocFind_remove {β : Type} (k : Nat) (l : List (Nat × β)) :
    assocFind k (assocRemove k l) = none := by
  induction l with
  | nil => rfl
  | cons p t ih =>
    by_cases h : p.1 = k
    · simpa [assocRemove, h] using ih
    · simpa [assocRemove, assocFind, h] using ih

/-- Updating a key rewrites its lookup when present and keeps it absent
otherwise. -/
theorem assocFind_set {β : Type} (k : Nat) (v : β) (l : List (Nat × β)) :
    assocFind k (assocSet k v l) =
      match assocFind k l with
      | some _ => some v
      | none => none := by
  induction l with
  | nil => rfl
  | cons p t ih =>
    by_cases h : p.1 = k
    · simp [assocSet, assocFind, h]
    · simpa [assocSet, assocFind, h] using ih

/-- Marking a task cancelled twice equals marking it once. -/
theorem markCancelled_idem (st : Store) (id : Nat) :
    markCancelled (markCancelled st id) id = markCancelled st id := by
  simp only [markCancelled, updateRecord, List.map_map]
  apply List.map_congr_left
  intro p _
  by_cases h : p.1 = id <;> simp [h]

/-- Unlinking a path removes it from the filesystem. -/
theorem fsMem_unlink_self (fs : List Str) (p : Str) :
    fsMem p (unlinkFs fs p) = false := by
  induction fs with
  | nil => rfl
  | cons q t ih =>
    by_cases h : q = p
    · have he : unlinkFs (q :: t) p = unlinkFs t p := by
        simp [unlinkFs, List.filter_cons, h]
      rw [he]; exact ih
    · simp only [unlinkFs, List.filter_cons, h]
      simp [unlinkFs, fsMem, h]

/-- Unlinking never adds a path. -/
theorem fsMem_unlink_mono (fs : List Str) (p q : Str)
    (h : fsMem q fs = false) : fsMem q (unlinkFs fs p) = false := by
  induction fs with
  | nil => rfl
  | cons r t ih =>
    have h1 : (decide (r = q) || fsMem q t) = false := h
    rcases Bool.or_eq_false_iff.mp h1 with ⟨hrq, ht⟩
    by_cases hr : r = p
    · simpa [unlinkFs, List.filter_cons, hr] using ih ht
    · simpa [unlinkFs, fsMem, List.filter_cons, hr, hrq] using ih ht

/-! ## Claim C1 -/

/-- C1: for every subprocess-backed run for which `cancel()` was recorded
(the executor's `_cancelled` flag set) and whose process exited with the
kill-signal exit code -9, `_run_command` returns an unsuccessful result
carrying the special error marker `task_cancelled`, and the scheduler's
result handling maps that marker to `mark_cancelled` rather than
`mark_failed`. -/
theorem c1_cancelled_kill_maps_to_mark_cancelled
    (stdoutS stderrS : Str) (selfType : TaskType) (param : Option Str)
    (t : TaskType) (displayId : Nat) (payloadBranch : Option Str)
    (fs : List Str) (st : Store) (id : Nat) :
    (runCommand true (-9) stdoutS stderrS selfType param).success = false ∧
    (runCommand true (-9) stdoutS stderrS selfType param).error =
      some cancelMarker ∧
    resultAction t displayId payloadBranch
      (runCommand true (-9) stdoutS stderrS selfType param) fs =
      Except.ok StoreAction.doCancel ∧
    applyStoreAction st id StoreAction.doCancel = markCancelled st id := by
  have hrc : runCommand true (-9) stdoutS stderrS selfType param =
      { success := false, summary := { exitCode := some (-9) },
        error := some cancelMarker, stdout := some stdoutS,
        stderr := some stderrS, exitCode := some (-9) } := by
    simp [runCommand]
  refine ⟨by rw [hrc], by rw [hrc], ?_, rfl⟩
  rw [hrc]
  simp [resultAction, failureAction, ExecResult.dictError, cancelMarker]

/-! ## Claim C3 -/

/-- C3: when the worker body catches an unexpected exception, the
scheduler first re-reads the record's status; a record already
`cancelled` is left entirely unchanged, and only otherwise is the record
marked `failed` with the exception text, so a recorded `cancelled`
terminal state is never overwritten by `failed`. -/
theorem c3_exception_never_overwrites_cancelled
    (st : Store) (id : Nat) (excText : Str) :
    ((getTask st id).map TaskRecord.status = some Status.cancelled →
      workerExceptionHandler st id excText = st) ∧
    ((getTask st id).map TaskRecord.status ≠ some Status.cancelled →
      workerExceptionHandler st id excText = markFailed st id excText) ∧
    ((getTask st id).map TaskRecord.status = some Status.cancelled →
      (getTask (workerExceptionHandler st id excText) id).map
        TaskRecord.status = some Status.cancelled) := by
  cases h : getTask st id with
  | none => simp [workerExceptionHandler, h]
  | some r =>
    by_cases hs : r.status = Status.cancelled
    · refine ⟨fun _ => ?_, fun hne => ?_, fun _ => ?_⟩
      · simp [workerExceptionHandler, h, hs]
      · exact absurd (by simp [h, hs]) hne
      · simp [workerExceptionHandler, h, hs]
    · refine ⟨fun hc => ?_, fun _ => ?_, fun hc => ?_⟩
      · exact absurd (by simpa [h] using hc) hs
      · simp [workerExceptionHandler, h, hs]
      · exact absurd (by simpa [h] using hc) hs

/-- Witness for C3 at concrete stores: a cancelled record survives the
exception handler unchanged, and a running record is marked failed. -/
theorem c3_exception_never_overwrites_cancelled_witness :
    workerExceptionHandler [(1, { status := Status.cancelled })] 1
        ("boom".toList) = [(1, { status := Status.cancelled })] ∧
    workerExceptionHandler [(2, { status := Status.running })] 2
        ("boom".toList) =
      markFailed [(2, { status := Status.running })] 2 ("boom".toList) :=
  ⟨(c3_exception_never_overwrites_cancelled
      [(1, { status := Status.cancelled })] 1 ("boom".toList)).1
      (by decide),
   (c3_exception_never_overwrites_cancelled
      [(2, { status := Status.running })] 2 ("boom".toList)).2.1
      (by decide)⟩

/-! ## Claim C2 -/

/-- Condition under which `future.cancel()` would report success inside
`cancel_task`: the future exists, is not done, and its cancellation
succeeds (i.e. it has not started). -/
def futureCancelWouldSucceed (s : SchedState) (id : Nat) : Bool :=
  match assocFind id s.futures with
  | some f => !f.doneF && (futureCancel f).1
  | none => false

/-- C2: `cancel_task` returns `True` exactly when, at the time of the
call, a live executor handle is registered for the id or the future's
cancellation succeeds; in exactly those cases the record store is updated
to `cancelled`, and otherwise the call returns `False` and leaves the
store untouched. -/
theorem c2_cancel_task_reports_iff (s : SchedState) (id : Nat) :
    ((cancelTask s id).1 = true ↔
      ((assocFind id s.executors).isSome = true ∨
        futureCancelWouldSucceed s id = true)) ∧
    ((cancelTask s id).1 = true →
      (cancelTask s id).2.store = markCancelled s.store id) ∧
    ((cancelTask s id).1 = false →
      (cancelTask s id).2.store = s.store) := by
  cases hex : assocFind id s.executors with
  | none =>
    cases hfut : assocFind id s.futures with
    | none => simp [cancelTask, futureCancelWouldSucceed, hex, hfut]
    | some f =>
      cases f <;>
        simp [cancelTask, futureCancelWouldSucceed, hex, hfut,
          FutureState.doneF, futureCancel]
  | some e =>
    cases hfut : assocFind id s.futures with
    | none => simp [cancelTask, futureCancelWouldSucceed, hex, hfut]
    | some f =>
      cases f <;>
        simp [cancelTask, futureCancelWouldSucceed, hex, hfut,
          FutureState.doneF, futureCancel]

/-- Witness for C2 at concrete states: a registered executor makes
`cancel_task` mark the record cancelled, and a finished future with no
executor leaves the store untouched. -/
theorem c2_cancel_task_reports_iff_witness :
    (cancelTask
        { futures := [(1, FutureState.runningF)],
          executors := [(1, { cancelledFlag := false })],
          store := [(1, { status := Status.running })] } 1).2.store =
      markCancelled [(1, { status := Status.running })] 1 ∧
    (cancelTask
        { futures := [(2, FutureState.finishedF)], executors := [],
          store := [(2, { status := Status.completed })] } 2).2.store =
      [(2, { status := Status.completed })] :=
  ⟨(c2_cancel_task_reports_iff
      { futures := [(1, FutureState.runningF)],
        executors := [(1, { cancelledFlag := false })],
        store := [(1, { status := Status.running })] } 1).2.1 (by decide),
   (c2_cancel_task_reports_iff
      { futures := [(2, FutureState.finishedF)], executors := [],
        store := [(2, { status := Status.completed })] } 2).2.2
      (by decide)⟩

/-! ## Claim C10 -/

/-- C10: only the command-line task kinds route through the executor
registration path, and cancelling a running task that registered no
executor kills nothing, performs no store update, and returns `False`. -/
theorem c10_only_command_kinds_register :
    (∀ t : TaskType, registersExecutor t = true ↔
      (t = TaskType.perf_test_cmd ∨ t = TaskType.eval_test ∨
       t = TaskType.pytest ∨ t = TaskType.env_deploy ∨
       t = TaskType.generic_command)) ∧
    (∀ (s : SchedState) (id : Nat),
      assocFind id s.executors = none →
      assocFind id s.futures = some FutureState.runningF →
      (cancelTask s id).1 = false ∧
      (cancelTask s id).2.store = s.store ∧
      (cancelTask s id).2.executors = s.executors) := by
  constructor
  · intro t
    cases t <;> decide
  · intro s id hex hfut
    simp [cancelTask, hex, hfut, FutureState.doneF, futureCancel]

/-- Witness for C10: a concrete running task with no registered executor
cannot be cancelled and its store and executor table stay unchanged. -/
theorem c10_only_command_kinds_register_witness :
    (cancelTask
        { futures := [(3, FutureState.runningF)], executors := [],
          store := [(3, { status := Status.running })] } 3).1 = false ∧
    (cancelTask
        { futures := [(3, FutureState.runningF)], executors := [],
          store := [(3, { status := Status.running })] } 3).2.store =
      [(3, { status := Status.running })] ∧
    (cancelTask
        { futures := [(3, FutureState.runningF)], executors := [],
          store := [(3, { status := Status.running })] } 3).2.executors =
      [] :=
  c10_only_command_kinds_register.2
    { futures := [(3, FutureState.runningF)], executors := [],
      store := [(3, { status := Status.running })] } 3
    (by decide) (by decide)

/-! ## Claim C6 -/

/-- Second-call stability of `cancel_task` at the store level: whatever
the first call did, an immediately following second call never changes
the stored record again (the only store write is `mark_cancelled`, which
is idempotent). -/
theorem cancelTask_second_store (s : SchedState) (id : Nat) :
    (cancelTask (cancelTask s id).2 id).2.store =
      (cancelTask s id).2.store := by
  cases hex : assocFind id s.executors with
  | some e =>
    have hex2 : assocFind id
        (assocSet id { cancelledFlag := true } s.executors) =
        some { cancelledFlag := true } := by rw [assocFind_set, hex]
    cases hfut : assocFind id s.futures with
    | none => simp [cancelTask, hex, hfut, hex2, markCancelled_idem]
    | some f =>
      cases f <;>
        simp [cancelTask, hex, hfut, hex2, assocFind_set,
          FutureState.doneF, futureCancel, markCancelled_idem]
  | none =>
    cases hfut : assocFind id s.futures with
    | none => simp [cancelTask, hex, hfut]
    | some f =>
      cases f <;>
        simp [cancelTask, hex, hfut, assocFind_set,
          FutureState.doneF, futureCancel]

/-- C6 counterexample: on a running subprocess task whose executor handle
is still registered (the process has been killed but not yet reaped, so
the completion callback has not run), a first `cancel_task` succeeds and
marks the record cancelled, and a second `cancel_task` issued right after
returns `True` again instead of the claimed `False`. -/
theorem c6_counterexample :
    (cancelTask
        { futures := [(1, FutureState.runningF)],
          executors := [(1, { cancelledFlag := false })],
          store := [(1, { status := Status.running })] } 1).1 = true ∧
    (getTask (cancelTask
        { futures := [(1, FutureState.runningF)],
          executors := [(1, { cancelledFlag := false })],
          store := [(1, { status := Status.running })] } 1).2.store 1).map
      TaskRecord.status = some Status.cancelled ∧
    (cancelTask (cancelTask
        { futures := [(1, FutureState.runningF)],
          executors := [(1, { cancelledFlag := false })],
          store := [(1, { status := Status.running })] } 1).2 1).1 =
      true := by
  decide

/-- C6 (amended): once the completion callback's cleanup has removed the
task's in-flight handles, every subsequent `cancel_task` returns `False`
and leaves the whole scheduler state (stored terminal status included)
unchanged; moreover a second cancel issued at any point, even while the
executor handle is still registered, never alters the stored state
further. -/
theorem c6_cancel_idempotent_after_cleanup (s : SchedState) (id : Nat) :
    cancelTask (cleanupTask s id) id = (false, cleanupTask s id) ∧
    (cancelTask (cancelTask s id).2 id).2.store =
      (cancelTask s id).2.store := by
  constructor
  · have h1 : assocFind id (cleanupTask s id).futures = none := by
      simp [cleanupTask, assocFind_remove]
    have h2 : assocFind id (cleanupTask s id).executors = none := by
      simp [cleanupTask, assocFind_remove]
    simp [cancelTask, h1, h2]
  · exact cancelTask_second_store s id

/-! ## Claim C4 -/

/-- Enum round trip: looking a member's string value up returns the
member. -/
theorem taskType_ofStr_str (t : TaskType) : TaskType.ofStr t.str = some t := by
  cases t <;> decide

/-- Failure mapping of an executor configuration error: a nonempty error
text other than the cancellation marker is surfaced through
`mark_failed`. -/
theorem failureAction_executeError (e : Str) (hne : e ≠ [])
    (hnc : e ≠ cancelMarker) :
    failureAction (executeErrorResult e) = StoreAction.doFail e := by
  have h1 : e.isEmpty = false := by
    cases e with
    | nil => exact absurd rfl hne
    | cons a t => rfl
  simp [failureAction, executeErrorResult, ExecResult.dictError, h1, hnc]

/-- C4 counterexample: a payload whose `task_type` discriminant names the
unknown kind "bogus_kind" is not failed fast; the scheduler's dispatch
silently coerces it to the legacy `perf_test_api` kind and runs it on the
API backend, exactly as if the discriminant were absent. -/
theorem c4_counterexample :
    dispatchTaskType (some ("bogus_kind".toList)) = TaskType.perf_test_api ∧
    selectBackend (dispatchTaskType (some ("bogus_kind".toList))) =
      Backend.apiB ∧
    dispatchTaskType (some ("bogus_kind".toList)) = dispatchTaskType none := by
  decide

/-- C4 (amended): an unknown scheduler-level `task_type` discriminant is
silently coerced to the legacy `perf_test_api` kind instead of failing.
At the executor level, a `command_type` string naming no `TaskType`
member raises `ValueError` before `execute`'s `try` block, so the
exception escapes `execute` and is surfaced as `failed` by the
scheduler's worker-boundary handler (unless a racing cancel already
marked the record cancelled); a valid member outside the five command
kinds raises inside the `try` and is caught by `execute`'s own `except`
clause, which returns an unsuccessful result with a descriptive message
that the scheduler maps to `mark_failed`. -/
theorem c4_unknown_kind_amended :
    (∀ s : Str, TaskType.ofStr s = none →
      dispatchTaskType (some s) = TaskType.perf_test_api) ∧
    (∀ (s : Str) (selfType : TaskType), TaskType.ofStr s = none →
      executeDispatch (some s) selfType =
        ExecuteDispatchOutcome.raised
          (s ++ " is not a valid TaskType".toList) ∧
      (∀ (st : Store) (id : Nat),
        (getTask st id).map TaskRecord.status ≠ some Status.cancelled →
        workerExceptionHandler st id
            (s ++ " is not a valid TaskType".toList) =
          markFailed st id (s ++ " is not a valid TaskType".toList))) ∧
    (∀ (t selfType : TaskType), commandKinds.contains t = false →
      executeDispatch (some t.str) selfType =
        ExecuteDispatchOutcome.caughtError (executeErrorResult
          ("Unsupported command type: TaskType.".toList ++ t.str)) ∧
      (executeErrorResult
        ("Unsupported command type: TaskType.".toList ++ t.str)).success =
        false ∧
      failureAction (executeErrorResult
          ("Unsupported command type: TaskType.".toList ++ t.str)) =
        StoreAction.doFail
          ("Unsupported command type: TaskType.".toList ++ t.str)) := by
  refine ⟨?_, ?_, ?_⟩
  · intro s h
    simp [dispatchTaskType, h]
  · intro s selfType h
    refine ⟨?_, ?_⟩
    · simp [executeDispatch, resolveCommandType, h]
    · intro st id hnc
      cases hrec : getTask st id with
      | none => simp [workerExceptionHandler, hrec]
      | some r =>
        have hs : r.status ≠ Status.cancelled := by
          intro hcl
          exact hnc (by simp [hrec, hcl])
        simp [workerExceptionHandler, hrec, hs]
  · intro t selfType h
    have h2 : t ∉ commandKinds := by simpa using h
    refine ⟨?_, rfl, ?_⟩
    · simp [executeDispatch, resolveCommandType, taskType_ofStr_str, h2]
    · apply failureAction_executeError
      · simp
      · intro heq
        have hlen := congrArg List.length heq
        have h35 : ("Unsupported command type: TaskType.".toList).length =
            35 := rfl
        have h14 : cancelMarker.length = 14 := rfl
        rw [List.length_append, h35, h14] at hlen
        omega

/-- Witness for C4 (amended) at concrete inputs: the unknown string "wat"
is coerced to the legacy kind at the scheduler, the same string as an
executor-level command type raises the escaping enum error, and a valid
but unsupported member produces the caught configuration-error result. -/
theorem c4_unknown_kind_amended_witness :
    dispatchTaskType (some ("wat".toList)) = TaskType.perf_test_api ∧
    executeDispatch (some ("wat".toList)) TaskType.generic_command =
      ExecuteDispatchOutcome.raised
        ("wat".toList ++ " is not a valid TaskType".toList) ∧
    executeDispatch (some (TaskType.hardware_info.str))
        TaskType.generic_command =
      ExecuteDispatchOutcome.caughtError (executeErrorResult
        ("Unsupported command type: TaskType.".toList ++
          TaskType.hardware_info.str)) :=
  ⟨c4_unknown_kind_amended.1 ("wat".toList) (by decide),
   (c4_unknown_kind_amended.2.1 ("wat".toList) TaskType.generic_command
     (by decide)).1,
   (c4_unknown_kind_amended.2.2 TaskType.hardware_info
     TaskType.generic_command (by decide)).1⟩

/-! ## Claim C7 -/

/-- C7 counterexample: a hardware-info task whose backend reports success
with an artifact path absent from the filesystem is completed with that
raw path unchanged — no fallback synthesis happens for this kind. -/
theorem c7_counterexample :
    routeSuccess TaskType.hardware_info 7 none
        { success := true, summary := {},
          outputFile := some (JVal.jstr ("/data/hw_missing.json".toList)) }
        [] =
      Except.ok (StoreAction.doComplete
        (JVal.jstr ("/data/hw_missing.json".toList)) {}) ∧
    fsMem ("/data/hw_missing.json".toList) ([] : List Str) = false ∧
    JVal.jstr ("/data/hw_missing.json".toList) ≠
      JVal.jstr (persistPath 7) := by
  refine ⟨rfl, rfl, by decide⟩

/-- C7 (amended): for the kinds routed through the artifact-resolution
logic — the command-line kinds (via the generated-xlsx reference) and the
legacy API kind (via the backend's output-file reference) — a successful
result whose resolved artifact path does not exist on disk falls back to
the synthesized artifact of `persist_result`, and the task still reaches
the terminal state `completed`; hardware-info tasks bypass this logic
(see the counterexample). -/
theorem c7_missing_artifact_falls_back (t : TaskType) (displayId : Nat)
    (payloadBranch : Option Str) (res : ExecResult) (fs : List Str)
    (name : Str) (st : Store) (id : Nat) :
    (commandKinds.contains t = true →
      res.success = true →
      res.summary.outputXlsx = some (JVal.jstr name) → name ≠ [] →
      fsMem (pathJoin (repoPath (payloadBranch.getD ("main".toList))) name)
          fs = false →
      resultAction t displayId payloadBranch res fs =
        Except.ok (StoreAction.doComplete
          (JVal.jstr (persistPath displayId)) res.summary)) ∧
    (res.success = true →
      res.outputFile = some (JVal.jstr name) → name ≠ [] →
      fsMem (if isAbsPath name then name
          else pathJoin (repoPath (payloadBranch.getD ("main".toList))) name)
          fs = false →
      resultAction TaskType.perf_test_api displayId payloadBranch res fs =
        Except.ok (StoreAction.doComplete
          (JVal.jstr (persistPath displayId)) res.summary)) ∧
    ((getTask st id).isSome = true →
      (getTask (applyStoreAction st id (StoreAction.doComplete
          (JVal.jstr (persistPath displayId)) res.summary)) id).map
        TaskRecord.status = some Status.completed) := by
  refine ⟨?_, ?_, ?_⟩
  · intro hk hsucc hx hname hmem
    have hne : name.isEmpty = false := by
      cases name with
      | nil => exact absurd rfl hname
      | cons a l => rfl
    cases t <;>
      simp_all [resultAction, routeSuccess, truthyOpt, jvTruthy, commandKinds]
  · intro hsucc hof hname hmem
    have hne : name.isEmpty = false := by
      cases name with
      | nil => exact absurd rfl hname
      | cons a l => rfl
    simp [resultAction, routeSuccess, hsucc, ExecResult.dictOutputFile,
      hof, truthyOpt, jvTruthy, hne]
    intro hcontra
    exact absurd hcontra (by simpa using hmem)
  · intro hsome
    cases h : getTask st id with
    | none => rw [h] at hsome; exact absurd hsome (by simp)
    | some r =>
      simp [applyStoreAction, markCompleted, getTask_updateRecord, h]

/-- Witness for C7 (amended): a command-kind task whose generated xlsx is
absent, and an API task whose absolute output file is absent, both fall
back to the synthesized artifact path. -/
theorem c7_missing_artifact_falls_back_witness :
    resultAction TaskType.eval_test 7 none
        { success := true,
          summary :=
            { outputXlsx :=
                some (JVal.jstr ("ab01_20240101_120000.xlsx".toList)) } }
        [] =
      Except.ok (StoreAction.doComplete (JVal.jstr (persistPath 7))
        { outputXlsx :=
            some (JVal.jstr ("ab01_20240101_120000.xlsx".toList)) }) ∧
    resultAction TaskType.perf_test_api 8 none
        { success := true, summary := {},
          outputFile := some (JVal.jstr ("/abs/out.xlsx".toList)) } [] =
      Except.ok (StoreAction.doComplete (JVal.jstr (persistPath 8)) {}) :=
  ⟨(c7_missing_artifact_falls_back TaskType.eval_test 7 none
      { success := true,
        summary :=
          { outputXlsx :=
              some (JVal.jstr ("ab01_20240101_120000.xlsx".toList)) } }
      [] ("ab01_20240101_120000.xlsx".toList) [] 0).1
      (by decide) rfl rfl (by decide) (by decide),
   (c7_missing_artifact_falls_back TaskType.perf_test_api 8 none
      { success := true, summary := {},
        outputFile := some (JVal.jstr ("/abs/out.xlsx".toList)) }
      [] ("/abs/out.xlsx".toList) [] 0).2.1
      rfl rfl (by decide) (by decide)⟩

/-! ## Claim C9 -/

/-- Path-or-absent test for stored artifact locations (the store keeps
strings or NULL there). -/
def strOrNone : Option JVal → Bool
  | none => true
  | some (JVal.jstr _) => true
  | some _ => false

/-- Computed form of `delete_file` on a string path. -/
theorem deleteFile_str (fs : List Str) (p : Str) :
    deleteFile fs (some (JVal.jstr p)) =
      Except.ok (if p.isEmpty then fs
        else if fsMem p fs then unlinkFs fs p else fs) := by
  by_cases hp : p.isEmpty <;> simp [deleteFile, jvTruthy, hp]

/-- Totality of `delete_file` on string-or-absent paths. -/
theorem deleteFile_ok (fs : List Str) (v : Option JVal)
    (hv : strOrNone v = true) :
    ∃ fs2, deleteFile fs v = Except.ok fs2 := by
  match v with
  | none => exact ⟨fs, rfl⟩
  | some (JVal.jstr p) => exact ⟨_, deleteFile_str fs p⟩
  | some JVal.jnull => simp [strOrNone] at hv
  | some (JVal.jbool b) => simp [strOrNone] at hv
  | some (JVal.jnum q) => simp [strOrNone] at hv

/-- After `delete_file` on a nonempty string path, the path is gone. -/
theorem deleteFile_removes (fs fs2 : List Str) (p : Str) (hp : p ≠ [])
    (h : deleteFile fs (some (JVal.jstr p)) = Except.ok fs2) :
    fsMem p fs2 = false := by
  have hne : p.isEmpty = false := by
    cases p with
    | nil => exact absurd rfl hp
    | cons a l => rfl
  rw [deleteFile_str, hne] at h
  by_cases hm : fsMem p fs = true
  · simp [hm] at h
    rw [← h]
    exact fsMem_unlink_self fs p
  · have hm2 : fsMem p fs = false := by
      cases hq : fsMem p fs
      · rfl
      · exact absurd hq hm
    simp [hm2] at h
    rw [← h]
    exact hm2

/-- `delete_file` never adds a path. -/
theorem deleteFile_mono (fs fs2 : List Str) (v : Option JVal) (q : Str)
    (h : deleteFile fs v = Except.ok fs2) (hq : fsMem q fs = false) :
    fsMem q fs2 = false := by
  match v with
  | none =>
    simp [deleteFile] at h
    rw [← h]; exact hq
  | some (JVal.jstr p) =>
    rw [deleteFile_str] at h
    by_cases hp : p.isEmpty
    · simp [hp] at h; rw [← h]; exact hq
    · simp [hp] at h
      by_cases hm : fsMem p fs = true
      · simp [hm] at h; rw [← h]; exact fsMem_unlink_mono fs p q hq
      · have hm2 : fsMem p fs = false := by
          cases hx : fsMem p fs
          · rfl
          · exact absurd hx hm
        simp [hm2] at h; rw [← h]; exact hq
  | some JVal.jnull => simp [deleteFile, jvTruthy] at h; rw [← h]; exact hq
  | some (JVal.jbool b) =>
    cases b with
    | false => simp [deleteFile, jvTruthy] at h; rw [← h]; exact hq
    | true => simp [deleteFile, jvTruthy] at h
  | some (JVal.jnum r) =>
    by_cases hr : r = 0
    · simp [deleteFile, jvTruthy, hr] at h; rw [← h]; exact hq
    · simp [deleteFile, jvTruthy, hr] at h

/-- C9: deleting a task's files removes its primary result, its archived
result, and its log file named from the display id and uuid, never raises
when any of the three is absent, and `delete_file` is a no-op on an
absent, empty, or missing path while the log file is unlinked only when
it exists. -/
theorem c9_delete_artifacts_idempotent (taskId : Nat) (rec : TaskRecord)
    (fs : List Str) (hr : strOrNone rec.resultPath = true)
    (ha : strOrNone rec.archivedPath = true) :
    (∃ fs3, deleteTaskArtifacts taskId rec fs = Except.ok fs3 ∧
      (∀ p, rec.resultPath = some (JVal.jstr p) → p ≠ [] →
        fsMem p fs3 = false) ∧
      (∀ p, rec.archivedPath = some (JVal.jstr p) → p ≠ [] →
        fsMem p fs3 = false) ∧
      fsMem (taskLogPath taskId rec) fs3 = false) ∧
    (∀ fsx : List Str, deleteFile fsx none = Except.ok fsx) ∧
    (∀ (fsx : List Str) (p : Str), fsMem p fsx = false →
      deleteFile fsx (some (JVal.jstr p)) = Except.ok fsx) ∧
    (∀ fsx : List Str, deleteFile fsx (some (JVal.jstr [])) =
      Except.ok fsx) := by
  refine ⟨?_, fun fsx => rfl, ?_, fun fsx => rfl⟩
  · obtain ⟨fs1, h1⟩ := deleteFile_ok fs rec.resultPath hr
    obtain ⟨fs2, h2⟩ := deleteFile_ok fs1 rec.archivedPath ha
    refine ⟨if fsMem (taskLogPath taskId rec) fs2 then
        unlinkFs fs2 (taskLogPath taskId rec) else fs2, ?_, ?_, ?_, ?_⟩
    · unfold deleteTaskArtifacts
      rw [h1]
      simp only [Except.bind, Bind.bind]
      rw [h2]
      by_cases hl : fsMem (taskLogPath taskId rec) fs2 = true
      · simp [hl, pure, Except.pure]
      · simp [hl, pure, Except.pure]
    · intro p hp hpne
      have e1 : fsMem p fs1 = false := by
        rw [hp] at h1
        exact deleteFile_removes fs fs1 p hpne h1
      have e2 : fsMem p fs2 = false :=
        deleteFile_mono fs1 fs2 rec.archivedPath p h2 e1
      by_cases hl : fsMem (taskLogPath taskId rec) fs2 = true
      · simp only [hl, if_true]
        exact fsMem_unlink_mono fs2 (taskLogPath taskId rec) p e2
      · simp only [Bool.not_eq_true] at hl
        simp only [hl, Bool.false_eq_true, if_false]
        exact e2
    · intro p hp hpne
      have e2 : fsMem p fs2 = false := by
        rw [hp] at h2
        exact deleteFile_removes fs1 fs2 p hpne h2
      by_cases hl : fsMem (taskLogPath taskId rec) fs2 = true
      · simp only [hl, if_true]
        exact fsMem_unlink_mono fs2 (taskLogPath taskId rec) p e2
      · simp only [Bool.not_eq_true] at hl
        simp only [hl, Bool.false_eq_true, if_false]
        exact e2
    · by_cases hl : fsMem (taskLogPath taskId rec) fs2 = true
      · simp only [hl, if_true]
        exact fsMem_unlink_self fs2 (taskLogPath taskId rec)
      · simp only [Bool.not_eq_true] at hl
        simp only [hl, Bool.false_eq_true, if_false]
  · intro fsx p hmem
    rw [deleteFile_str]
    by_cases hp : p.isEmpty <;> simp [hp, hmem]

/-- Witness for C9 at a concrete record and filesystem: primary, archive
and log all present, all removed, no error. -/
theorem c9_delete_artifacts_idempotent_witness :
    ∃ fs3, deleteTaskArtifacts 1
        { status := Status.completed, displayId := some 7,
          uuid := "u-1".toList,
          resultPath := some (JVal.jstr ("/srv/llm-perf/results/task_7.xlsx".toList)),
          archivedPath := none } 
        ["/srv/llm-perf/results/task_7.xlsx".toList,
         "/srv/llm-perf/logs/tasks/7_u-1.log".toList] = Except.ok fs3 ∧
      (∀ p, (some (JVal.jstr ("/srv/llm-perf/results/task_7.xlsx".toList)) :
          Option JVal) = some (JVal.jstr p) → p ≠ [] →
        fsMem p fs3 = false) ∧
      (∀ p, (none : Option JVal) = some (JVal.jstr p) → p ≠ [] →
        fsMem p fs3 = false) ∧
      fsMem (taskLogPath 1
        { status := Status.completed, displayId := some 7,
          uuid := "u-1".toList,
          resultPath := some (JVal.jstr ("/srv/llm-perf/results/task_7.xlsx".toList)),
          archivedPath := none }) fs3 = false :=
  (c9_delete_artifacts_idempotent 1
      { status := Status.completed, displayId := some 7,
        uuid := "u-1".toList,
        resultPath := some (JVal.jstr ("/srv/llm-perf/results/task_7.xlsx".toList)),
        archivedPath := none }
      ["/srv/llm-perf/results/task_7.xlsx".toList,
       "/srv/llm-perf/logs/tasks/7_u-1.log".toList]
      (by decide) (by decide)).1

/-! ## Claim C5 -/

/-- Score validity is unaffected by recording the exit code in the
summary. -/
theorem scoreValid_exitCode (s : Summary) (e : Int) :
    scoreValid { s with exitCode := some e } = scoreValid s := rfl

/-- C5 counterexample: an evaluation-kind execution with exit code 0
whose stdout announces a generated xlsx (so an output artifact is
detected) but carries no score is still classified as unsuccessful — the
eval-score gate overrides the artifact-implies-success rule. -/
theorem c5_counterexample :
    truthyOpt (detectOutputFile none
      ((parseOutput
          ("data saved to: ab01_20240101_120000.xlsx".toList)).toOption.getD
        {})) = true ∧
    (runCommand false 0 ("data saved to: ab01_20240101_120000.xlsx".toList)
      [] TaskType.eval_test none).success = false := by
  exact ⟨rfl, rfl⟩

/-- C5 (amended): when no output artifact is detected, any error pattern
in the combined stdout+stderr makes the result unsuccessful regardless of
the exit code; conversely, a detected output artifact makes the result
successful even with a non-zero exit code or a matching pattern, unless
the run was flagged cancelled with the kill exit code -9 (which yields
the `task_cancelled` failure first) or it is an evaluation-kind run from
which no valid score was extracted (which fails at the eval-score
gate). -/
theorem c5_patterns_vs_artifact (cancelled : Bool) (exitCode : Int)
    (stdoutS stderrS : Str) (selfType : TaskType) (param : Option Str)
    (s : Summary) (pr : Str × Str) :
    (parseOutput stdoutS = Except.ok s →
      truthyOpt (detectOutputFile param s) = false →
      pr ∈ errorPatterns →
      containsSub pr.1 (stdoutS ++ '\n' :: stderrS) = true →
      (runCommand cancelled exitCode stdoutS stderrS selfType
        param).success = false) ∧
    (parseOutput stdoutS = Except.ok s →
      truthyOpt (detectOutputFile param s) = true →
      ¬(cancelled = true ∧ exitCode = -9) →
      (selfType = TaskType.eval_test → scoreValid s = true) →
      (runCommand cancelled exitCode stdoutS stderrS selfType
        param).success = true) := by
  constructor
  · intro hp hdet hmem hsub
    cases hc : (cancelled && decide (exitCode = -9)) with
    | true => simp [runCommand, hc]
    | false =>
      cases hf : errorPatterns.find?
          (fun q => containsSub q.1 (stdoutS ++ '\n' :: stderrS)) with
      | some q => simp [runCommand, hc, hp, hdet, hf]
      | none =>
        have hall := List.find?_eq_none.mp hf pr hmem
        simp [hsub] at hall
  · intro hp hdet hnc hscore
    have hc : (cancelled && decide (exitCode = -9)) = false := by
      cases hcl : cancelled with
      | false => rfl
      | true =>
        have hne : ¬(exitCode = -9) := fun he => hnc ⟨hcl, he⟩
        simp [hne]
    simp only [runCommand, hc, Bool.false_eq_true, if_false, hp]
    simp only [hdet, Bool.not_true, Bool.false_eq_true, if_false]
    by_cases he : selfType = TaskType.eval_test
    · have hsv : scoreValid { s with exitCode := some exitCode } = true := by
        rw [scoreValid_exitCode]; exact hscore he
      simp [evalGate, he, hsv]
    · simp [evalGate, he]

/-- Witness for C5 (amended): a pattern-bearing run with exit 0 and no
artifact fails, and an artifact-bearing non-eval run with exit 3
succeeds. -/
theorem c5_patterns_vs_artifact_witness :
    (runCommand false 0 ("Connection refused".toList) []
      TaskType.generic_command none).success = false ∧
    (runCommand false 3 ("data saved to: ab01_20240101_120000.xlsx".toList)
      [] TaskType.pytest none).success = true :=
  ⟨(c5_patterns_vs_artifact false 0 ("Connection refused".toList) []
      TaskType.generic_command none
      ((parseOutput ("Connection refused".toList)).toOption.getD {})
      ("Connection refused".toList,
        "Connection to model server refused".toList)).1
      rfl rfl (by decide) rfl,
   (c5_patterns_vs_artifact false 3
      ("data saved to: ab01_20240101_120000.xlsx".toList) []
      TaskType.pytest none
      ((parseOutput
          ("data saved to: ab01_20240101_120000.xlsx".toList)).toOption.getD
        {})
      ([], [])).2
      rfl rfl (by decide) (by decide)⟩

/-! ## Claim C8 -/

/-- Score field produced by one line of the regex pass: an existing score
survives, and otherwise the line's first score-pattern match (converted
by `float`) is stored. -/
theorem regexLinePass_ok_score (s : Summary) (line : Str) (res : Summary)
    (h : regexLinePass s line = Except.ok res) :
    res.score = match s.score with
      | some v => some v
      | none => match scoreTokenLine line with
        | none => none
        | some tok => (floatOfToken tok).map JVal.jnum := by
  cases hx : genFileMatchLine (".xlsx".toList) line <;>
    cases hcv : genFileMatchLine (".csv".toList) line <;>
    simp only [regexLinePass, hx, hcv] at h <;>
    repeat' split at h
  all_goals first
    | (simp only [Except.ok.injEq] at h;
       subst h;
       cases hsc : s.score <;> cases hst : scoreTokenLine line <;> simp_all)
    | simp at h

/-- A line whose score token does not convert makes the regex pass raise,
so a returned summary implies the conversion succeeded. -/
theorem regexLinePass_ok_float (s : Summary) (line : Str) (res : Summary)
    (tok : Str) (h : regexLinePass s line = Except.ok res)
    (hsc : s.score = none) (hst : scoreTokenLine line = some tok) :
    (floatOfToken tok).isSome = true := by
  cases hf : floatOfToken tok with
  | none =>
    cases hx : genFileMatchLine (".xlsx".toList) line <;>
      cases hcv : genFileMatchLine (".csv".toList) line <;>
      simp only [regexLinePass, hx, hcv] at h <;>
      simp only [hst, hsc, hf] at h <;>
      exact absurd h (by simp)
  | some q => rfl

/-- A score already present before the regex pass survives it. -/
theorem regexPass_score_some (lines : List Str) (s : Summary) (v : JVal)
    (res : Summary) (hs : s.score = some v)
    (h : regexPass lines s = Except.ok res) : res.score = some v := by
  induction lines generalizing s with
  | nil =>
    simp only [regexPass, Except.ok.injEq] at h
    rw [← h]; exact hs
  | cons l t ih =>
    simp only [regexPass] at h
    cases hl : regexLinePass s l with
    | error e => rw [hl] at h; exact absurd h (by simp)
    | ok s1 =>
      rw [hl] at h
      have h1 := regexLinePass_ok_score s l s1 hl
      rw [hs] at h1
      exact ih s1 h1 h

/-- When no score is present before the regex pass, the pass stores the
first score-pattern match over the lines, in order. -/
theorem regexPass_score_none (lines : List Str) (s : Summary)
    (res : Summary) (hs : s.score = none)
    (h : regexPass lines s = Except.ok res) :
    res.score = match lines.findSome? scoreTokenLine with
      | none => none
      | some tok => (floatOfToken tok).map JVal.jnum := by
  induction lines generalizing s with
  | nil =>
    simp only [regexPass, Except.ok.injEq] at h
    simp only [List.findSome?_nil]
    rw [← h]; exact hs
  | cons l t ih =>
    simp only [regexPass] at h
    cases hl : regexLinePass s l with
    | error e => rw [hl] at h; exact absurd h (by simp)
    | ok s1 =>
      rw [hl] at h
      have h1 := regexLinePass_ok_score s l s1 hl
      simp only [hs] at h1
      cases hst : scoreTokenLine l with
      | none =>
        simp only [hst] at h1
        simp only [List.findSome?_cons, hst]
        exact ih s1 h1 h
      | some tok =>
        simp only [hst] at h1
        cases hf : floatOfToken tok with
        | none =>
          have hfl := regexLinePass_ok_float s l s1 tok hl hs hst
          rw [hf] at hfl
          exact absurd hfl (by simp)
        | some q =>
          simp [hf] at h1
          have hres := regexPass_score_some t s1 (JVal.jnum q) res h1 h
          simpa [List.findSome?_cons, hst, hf] using hres

/-- When no JSON line supplies a score, the parsed summary's score is the
first score-pattern occurrence over the stdout lines. -/
theorem parseOutput_score_firstRegex (so : Str) (s : Summary)
    (hjson : (jsonPass (splitLines so) {}).score = none)
    (hp : parseOutput so = Except.ok s) :
    s.score = match (splitLines so).findSome? scoreTokenLine with
      | none => none
      | some tok => (floatOfToken tok).map JVal.jnum := by
  simp only [parseOutput] at hp
  cases hr : regexPass (splitLines so)
      (jsonPass (splitLines so) ({} : Summary)) with
  | error e => rw [hr] at hp; exact absurd hp (by simp)
  | ok s2 =>
    rw [hr] at hp
    simp only [Except.ok.injEq] at hp
    have hsc := regexPass_score_none (splitLines so) _ s2 hjson hr
    have hss : s.score = s2.score := by
      rw [← hp]
      by_cases hemp : s2.isEmptyDict = true <;> simp [hemp]
    rw [hss, hsc]

/-- The eval-score gate never changes the summary it is given. -/
theorem evalGate_summary (summ : Summary) (outf : Option JVal)
    (succ : Bool) (st : TaskType) (so se : Str) (ec : Int) :
    (evalGate summ outf succ st so se ec).summary = summ := by
  unfold evalGate
  split
  · rfl
  · split <;> rfl

/-- A successful evaluation-kind gate requires a valid score. -/
theorem evalGate_eval_success (summ : Summary) (outf : Option JVal)
    (succ : Bool) (so se : Str) (ec : Int)
    (h : (evalGate summ outf succ TaskType.eval_test so se ec).success =
      true) : scoreValid summ = true := by
  by_cases hsv : scoreValid summ = true
  · exact hsv
  · have hsv2 : scoreValid summ = false := by
      cases hq : scoreValid summ
      · rfl
      · exact absurd hq hsv
    cases hsucc : succ with
    | true => simp [evalGate, hsucc, hsv2] at h
    | false => simp [evalGate, hsucc, hsv2] at h

/-- A successful evaluation-kind command execution always carries a valid
extracted score. -/
theorem runCommand_eval_needs_score (cancelled : Bool) (ec : Int)
    (so se : Str) (param : Option Str)
    (h : (runCommand cancelled ec so se TaskType.eval_test param).success =
      true) :
    scoreValid
      (runCommand cancelled ec so se TaskType.eval_test param).summary =
      true := by
  cases hc : (cancelled && decide (ec = -9)) with
  | true => simp [runCommand, hc] at h
  | false =>
    cases hp : parseOutput so with
    | error e => simp [runCommand, hc, hp] at h
    | ok s0 =>
      simp only [runCommand, hc, Bool.false_eq_true, if_false, hp] at h ⊢
      by_cases hdet : truthyOpt (detectOutputFile param s0) = true
      · simp only [hdet, Bool.not_true, Bool.false_eq_true, if_false] at h ⊢
        rw [evalGate_summary]
        exact evalGate_eval_success _ _ _ _ _ _ h
      · have hdet2 : truthyOpt (detectOutputFile param s0) = false := by
          cases hq : truthyOpt (detectOutputFile param s0)
          · rfl
          · exact absurd hq hdet
        simp only [hdet2, Bool.not_false, if_true] at h ⊢
        cases hf : errorPatterns.find?
            (fun pr => containsSub pr.1 (so ++ '\n' :: se)) with
        | some pr => simp [hf] at h
        | none =>
          simp only [hf] at h ⊢
          rw [evalGate_summary]
          exact evalGate_eval_success _ _ _ _ _ _ h

/-- C8 counterexample: in an evaluation run whose stdout holds the
pattern occurrence `score: 0.5` on the first line and the JSON line
carrying score 0.9 on the second, the recorded score is 0.9, not the
first occurrence 0.5 — a JSON-supplied score takes precedence over an
earlier pattern match. -/
theorem c8_counterexample :
    (runCommand false 0 ("score: 0.5\n\x7b\"score\": 0.9\x7d".toList) []
      TaskType.eval_test none).success = true ∧
    (runCommand false 0 ("score: 0.5\n\x7b\"score\": 0.9\x7d".toList) []
      TaskType.eval_test none).summary.score =
      some (JVal.jnum (decimalVal ("0".toList) ("9".toList))) ∧
    (splitLines ("score: 0.5\n\x7b\"score\": 0.9\x7d".toList)).findSome?
      scoreTokenLine = some ("0.5".toList) ∧
    floatOfToken ("0.5".toList) =
      some (decimalVal ("0".toList) ("5".toList)) ∧
    decimalVal ("0".toList) ("9".toList) ≠
      decimalVal ("0".toList) ("5".toList) := by
  refine ⟨rfl, rfl, by decide, rfl, ?_⟩
  norm_num [decimalVal, show natOfDigits ['9'] = 9 from rfl,
    show natOfDigits ['5'] = 5 from rfl, show natOfDigits ['0'] = 0 from rfl]

/-- C8 (amended): an evaluation-kind execution is successful only if a
valid numeric score is present in its summary; the scenario with captured
output `eval finished. score: 0.82` completes with score 0.82 (= 41/50)
and is routed to `mark_completed`; and the first score-pattern occurrence
in the output wins among pattern matches provided no JSON-object line
supplies a score — a JSON-supplied score takes precedence (see the
counterexample). -/
theorem c8_eval_score_amended (cancelled : Bool) (ec : Int) (so se : Str)
    (param : Option Str) (s : Summary) :
    ((runCommand cancelled ec so se TaskType.eval_test param).success =
        true →
      scoreValid
        (runCommand cancelled ec so se TaskType.eval_test param).summary =
        true) ∧
    ((runCommand false 0 ("eval finished. score: 0.82".toList) []
        TaskType.eval_test none).success = true ∧
      (runCommand false 0 ("eval finished. score: 0.82".toList) []
        TaskType.eval_test none).summary.score =
        some (JVal.jnum (decimalVal ("0".toList) ("82".toList))) ∧
      decimalVal ("0".toList) ("82".toList) = 41 / 50 ∧
      resultAction TaskType.eval_test 7 none
        (runCommand false 0 ("eval finished. score: 0.82".toList) []
          TaskType.eval_test none) [] =
        Except.ok (StoreAction.doComplete (JVal.jstr (persistPath 7))
          (runCommand false 0 ("eval finished. score: 0.82".toList) []
            TaskType.eval_test none).summary)) ∧
    ((jsonPass (splitLines so) {}).score = none →
      parseOutput so = Except.ok s →
      s.score = match (splitLines so).findSome? scoreTokenLine with
        | none => none
        | some tok => (floatOfToken tok).map JVal.jnum) := by
  refine ⟨runCommand_eval_needs_score cancelled ec so se param,
    ⟨rfl, rfl, ?_, rfl⟩, parseOutput_score_firstRegex so s⟩
  norm_num [decimalVal, show natOfDigits ['8', '2'] = 82 from rfl,
    show natOfDigits ['0'] = 0 from rfl]

/-- Witness for C8 (amended): a successful concrete evaluation run has a
valid score, and on a JSON-free concrete output the parsed score is the
first pattern occurrence. -/
theorem c8_eval_score_amended_witness :
    scoreValid (runCommand false 0 ("score: 1.0".toList) []
      TaskType.eval_test none).summary = true ∧
    ((parseOutput ("score: 0.5".toList)).toOption.getD {}).score =
      match (splitLines ("score: 0.5".toList)).findSome? scoreTokenLine with
      | none => none
      | some tok => (floatOfToken tok).map JVal.jnum :=
  ⟨(c8_eval_score_amended false 0 ("score: 1.0".toList) [] none
      ((parseOutput ("score: 0.5".toList)).toOption.getD {})).1 rfl,
   (c8_eval_score_amended false 0 ("score: 0.5".toList) [] none
      ((parseOutput ("score: 0.5".toList)).toOption.getD {})).2.2 rfl rfl⟩
